import Mathlib

/-!
Verification of the request-routing and fallback orchestrator of the
multi-modal chat backend (`app.py`).

The Python code is shallowly embedded: dict-shaped chat messages become a
structure of optional fields (a missing key and an explicit `None` value are
both modelled as `none`; the difference is irrelevant to the properties
proved here), Python truthiness of strings is `pyTruthy`, and the external
HTTP calls (`requests.post`, the transcription services, the video frame
extractor, the Bocha search client, SQLite) are abstracted as outcome
oracles passed in as parameters.  Exceptions raised by external calls are
modelled with `Except String`; a `try/except` block in the source becomes a
`match` on that `Except`.
-/

set_option autoImplicit false

/-- Python truthiness of an optional string value: `None` and `""` are falsy. -/
def pyTruthy : Option String → Bool
  | none => false
  | some s => !s.data.isEmpty

/-- The whitespace characters that Python `str.strip()` removes (the ASCII
ones; the messages handled here contain no exotic Unicode whitespace). -/
def pySpaceChar (c : Char) : Bool :=
  c = ' ' || c = '\t' || c = '\n' || c = '\r' || c = '\x0b' || c = '\x0c'

/-- Python `str.strip()`. -/
def pyStrip (s : String) : String :=
  ⟨((s.data.dropWhile pySpaceChar).reverse.dropWhile pySpaceChar).reverse⟩

/-- Python `str.startswith(pat)`. -/
def pyStartsWith (s pat : String) : Bool :=
  pat.data.isPrefixOf s.data

/-- Left-to-right replacement of every non-overlapping occurrence of `pat`
by `repl`; the fuel argument (instantiated with the string length, an upper
bound on the number of steps) only makes the recursion structural. -/
def replaceAux (pat repl : List Char) : Nat → List Char → List Char
  | 0, l => l
  | _fuel + 1, [] => []
  | fuel + 1, c :: rest =>
    if pat ≠ [] ∧ pat.isPrefixOf (c :: rest) then
      repl ++ replaceAux pat repl fuel ((c :: rest).drop pat.length)
    else
      c :: replaceAux pat repl fuel rest

/-- Python `str.replace(old, new)` (for the non-empty `old` used here). -/
def pyReplace (s old new : String) : String :=
  ⟨replaceAux old.data new.data s.data.length s.data⟩

/-- Python `str.lower()`. -/
def pyLower (s : String) : String :=
  ⟨s.data.map Char.toLower⟩

/-- A chat message dict as produced by the caller of `/api/chat`
(`{role, text, image, audio, video}`); each field may be absent. -/
structure ChatMessage where
  role : Option String := none
  text : Option String := none
  image : Option String := none
  audio : Option String := none
  video : Option String := none
deriving DecidableEq

/-- An entry of the static model registry `AVAILABLE_MODELS` in `app.py`. -/
structure ModelInfo where
  id : String
  name : String
  provider : String
  isDefault : Bool
  supports_image : Bool
  modelType : String
deriving DecidableEq

/-- The static registry `AVAILABLE_MODELS` (`app.py`, lines 42-75).
The dict keys `default` and `type` are the fields `isDefault` / `modelType`. -/
def AVAILABLE_MODELS : List ModelInfo :=
  [⟨"deepseek-ai/DeepSeek-V2.5", "DeepSeek-V2.5 (文本)", "siliconflow", true, false, "text"⟩,
   ⟨"Qwen/Qwen2.5-7B-Instruct", "Qwen2.5-7B (文本)", "siliconflow", false, false, "text"⟩,
   ⟨"meta-llama/llama-4-scout-17b-16e-instruct", "Llama 4 Scout (多模态)", "groq", false, true,
    "multimodal"⟩,
   ⟨"meta-llama/llama-4-maverick-17b-128e-instruct", "Llama 4 Maverick (多模态)", "groq", false,
    true, "multimodal"⟩]

/-- The fixed multimodal model that capability overrides and the Groq
fallback select (`app.py` lines 106, 111, 270). -/
def DEFAULT_MULTIMODAL_MODEL : String := "meta-llama/llama-4-scout-17b-16e-instruct"

/-- A Python value as it arrives from the parsed JSON request body.
Python `bool` is a subtype of `int`, which matters for the
`isinstance(temperature, (int, float))` check. -/
inductive PyVal where
  | pynone
  | pybool (b : Bool)
  | pyint (n : Int)
  | pyfloat (q : ℚ)
  | pystr (s : String)
  | pylist
  | pydict
deriving DecidableEq

/-- The `message` object inside a provider chat-completion JSON response:
its `content` (possibly `null`/absent) and its `tool_calls` list (the raw
tool-call descriptors are abstracted as strings). -/
structure ApiChatMessage where
  content : Option String := none
  tool_calls : List String := []
deriving DecidableEq

/-- The outcome of one outbound `requests.post` to a chat-completion
endpoint: the three exception classes distinguished by the retry loop, or a
parsed response message. -/
inductive HttpOutcome where
  | timeout (e : String)
  | connError (e : String)
  | otherError (e : String)
  | ok (message : ApiChatMessage)
deriving DecidableEq

/-- The uniform result dict returned by every provider call. -/
structure ProviderResult where
  success : Bool
  response : Option String := none
  message : Option ApiChatMessage := none
  tool_calls : List String := []
  provider : Option String := none
  model : Option String := none
  requires_tool_execution : Bool := false
  error : Option String := none
deriving DecidableEq

/-- A record of one actual outbound HTTP provider call, used to state which
providers a request reached and how often. -/
inductive ProviderCall where
  | siliconflow (model : String)
  | groq (model : String)
deriving DecidableEq

/-- Oracle for the network: the outcome of the n-th POST to each provider
endpoint during one `get_response` invocation. -/
structure Network where
  sfOutcomes : Nat → HttpOutcome
  groqOutcomes : Nat → HttpOutcome

/-- The API-key configuration of `MultiModalChatBotService`. -/
structure Config where
  siliconflow_api_key : Option String := none
  groq_api_key : Option String := none
  openai_api_key : Option String := none

/-- Embedding of `MultiModalChatBotService._has_image_content` (`app.py` lines 121-126). -/
def has_image_content (messages : List ChatMessage) : Bool :=
  messages.any fun msg => pyTruthy msg.image

/-- Embedding of `MultiModalChatBotService._has_multimedia_content` (`app.py` lines 128-133). -/
def has_multimedia_content (messages : List ChatMessage) : Bool :=
  messages.any fun msg => pyTruthy msg.image || pyTruthy msg.audio || pyTruthy msg.video

/-- Embedding of `MultiModalChatBotService._get_model_info` (`app.py` lines 135-140). -/
def get_model_info (model : String) : Option ModelInfo :=
  AVAILABLE_MODELS.find? fun m => m.id = model

/-- The retry bound of the SiliconFlow retry loop (`max_retries = 2`, line 200). -/
def MAX_RETRIES : Nat := 2

/-- Embedding of `MultiModalChatBotService._get_groq_response` (`app.py` lines 273-392).
The outgoing payload construction only feeds the abstracted HTTP call, so
the function is determined by the key configuration and the call outcome;
the `except Exception` handler covers every failure outcome alike. -/
def get_groq_response (cfg : Config) (outcome : HttpOutcome) (_messages : List ChatMessage)
    (model : String) (_system_prompt : Option String) (_temperature : PyVal)
    (_tools : Option (List String)) : ProviderResult × List ProviderCall :=
  if !pyTruthy cfg.groq_api_key then
    ({ success := false, error := some "Groq API密钥未配置" }, [])
  else
    match outcome with
    | .ok message =>
        if message.tool_calls ≠ [] then
          ({ success := true, message := some message, tool_calls := message.tool_calls,
             provider := some "groq", model := some model, requires_tool_execution := true },
           [.groq model])
        else
          ({ success := true, response := some (message.content.getD ""),
             provider := some "groq", model := some model }, [.groq model])
    | .timeout e =>
        ({ success := false, error := some ("Groq API错误: " ++ e) }, [.groq model])
    | .connError e =>
        ({ success := false, error := some ("Groq API错误: " ++ e) }, [.groq model])
    | .otherError e =>
        ({ success := false, error := some ("Groq API错误: " ++ e) }, [.groq model])

/-- Embedding of `MultiModalChatBotService._get_groq_fallback_response` (`app.py` lines
267-271): a single Groq call on the fixed fallback model, with no tools. -/
def get_groq_fallback_response (cfg : Config) (outcome : HttpOutcome)
    (messages : List ChatMessage) (system_prompt : Option String) (temperature : PyVal) :
    ProviderResult × List ProviderCall :=
  get_groq_response cfg outcome messages DEFAULT_MULTIMODAL_MODEL system_prompt temperature none

/-- The `for attempt in range(max_retries)` loop of
`_get_siliconflow_response` (`app.py` lines 203-265).  `attempt` is the
Python loop counter; the second argument is the number of iterations left
(`MAX_RETRIES - attempt`) and only drives the recursion.  The `rem = 0` base
case is the unreachable fall-through `return` after the loop (line 262). -/
def sf_attempt_loop (cfg : Config) (net : Network) (messages : List ChatMessage) (model : String)
    (system_prompt : Option String) (temperature : PyVal) (tools : Option (List String)) :
    Nat → Nat → ProviderResult × List ProviderCall
  | _attempt, 0 => ({ success := false, error := some "SiliconFlow API调用失败" }, [])
  | attempt, rem + 1 =>
    match net.sfOutcomes attempt with
    | .ok message =>
        if message.tool_calls ≠ [] then
          ({ success := true, message := some message, tool_calls := message.tool_calls,
             provider := some "siliconflow", model := some model, requires_tool_execution := true },
           [.siliconflow model])
        else
          ({ success := true, response := some (message.content.getD ""),
             provider := some "siliconflow", model := some model }, [.siliconflow model])
    | .timeout _e =>
        if attempt = MAX_RETRIES - 1 then
          let r := get_groq_fallback_response cfg (net.groqOutcomes 0) messages system_prompt
            temperature
          (r.1, .siliconflow model :: r.2)
        else
          let r := sf_attempt_loop cfg net messages model system_prompt temperature tools
            (attempt + 1) rem
          (r.1, .siliconflow model :: r.2)
    | .connError _e =>
        if attempt = MAX_RETRIES - 1 then
          let r := get_groq_fallback_response cfg (net.groqOutcomes 0) messages system_prompt
            temperature
          (r.1, .siliconflow model :: r.2)
        else
          let r := sf_attempt_loop cfg net messages model system_prompt temperature tools
            (attempt + 1) rem
          (r.1, .siliconflow model :: r.2)
    | .otherError e =>
        if attempt = MAX_RETRIES - 1 then
          ({ success := false, error := some ("SiliconFlow API错误: " ++ e) },
           [.siliconflow model])
        else
          let r := sf_attempt_loop cfg net messages model system_prompt temperature tools
            (attempt + 1) rem
          (r.1, .siliconflow model :: r.2)

/-- Embedding of `MultiModalChatBotService._get_siliconflow_response` (`app.py` lines
142-265). -/
def get_siliconflow_response (cfg : Config) (net : Network) (messages : List ChatMessage)
    (model : String) (system_prompt : Option String) (temperature : PyVal)
    (tools : Option (List String)) : ProviderResult × List ProviderCall :=
  if !pyTruthy cfg.siliconflow_api_key then
    ({ success := false, error := some "SiliconFlow API密钥未配置" }, [])
  else
    sf_attempt_loop cfg net messages model system_prompt temperature tools 0 MAX_RETRIES

/-- The capability-override branch of `get_response` (`app.py` lines
103-113), given the registry entry of the requested model: image content
with a non-image model, or audio/video content without image content with a
non-image model, both switch to the fixed multimodal default. -/
def select_model (messages : List ChatMessage) (model : String) (model_info : ModelInfo) :
    String :=
  if has_image_content messages && !model_info.supports_image then
    DEFAULT_MULTIMODAL_MODEL
  else if has_multimedia_content messages && !has_image_content messages
      && !model_info.supports_image then
    DEFAULT_MULTIMODAL_MODEL
  else
    model

/-- The selector part of `MultiModalChatBotService.get_response` (`app.py`
lines 89-113): registry lookup plus capability override; `none` is the
unknown-model error branch. -/
def select_model_id (messages : List ChatMessage) (model : String) : Option String :=
  (get_model_info model).map fun model_info => select_model messages model model_info

/-- Embedding of `MultiModalChatBotService.get_response` (`app.py` lines 89-119): model
lookup, capability override, then dispatch by the provider of the
selected model.  The inner `none` branch is unreachable (the override target is
in the registry); in Python it would be an uncaught `TypeError`. -/
def get_response (cfg : Config) (net : Network) (messages : List ChatMessage) (model : String)
    (system_prompt : Option String) (temperature : PyVal) (tools : Option (List String)) :
    ProviderResult × List ProviderCall :=
  match get_model_info model with
  | none => ({ success := false, error := some ("未知模型: " ++ model) }, [])
  | some model_info =>
    let selected := select_model messages model model_info
    match get_model_info selected with
    | none => ({ success := false, error := some ("未知模型: " ++ selected) }, [])
    | some info =>
      if info.provider = "groq" then
        get_groq_response cfg (net.groqOutcomes 0) messages selected system_prompt temperature
          tools
      else
        get_siliconflow_response cfg net messages selected system_prompt temperature tools

/-- The two exception classes that the retry loop treats as retriable
network failures leading to the Groq fallback. -/
def isNetworkFailure : HttpOutcome → Bool
  | .timeout _ => true
  | .connError _ => true
  | .otherError _ => false
  | .ok _ => false

/-- The result dict of `transcribe_audio_with_groq` / `transcribe_audio`
(`success`, `text` on success, `error` on failure). -/
structure TranscriptionOutcome where
  success : Bool
  text : String := ""
  error : Option String := none
deriving DecidableEq

/-- One entry of the frame_analysis list of the frame result dict.  The OpenCV float scores
are modelled as integers; the properties proved never inspect the digits. -/
structure FrameAnalysisInfo where
  time_formatted : String := "未知"
  position : String := "未知位置"
  motion_score : Int := 0
  brightness : Int := 0
deriving DecidableEq

/-- The video_stats entry of the frame result dict (an absent or empty dict is `none`). -/
structure VideoStats where
  avg_motion : Int := 0
  scene_changes : Int := 0
deriving DecidableEq

/-- The result dict of `extract_video_frames`. -/
structure FrameOutcome where
  success : Bool
  frames : List String := []
  analysis_summary : Option String := none
  frame_analysis : List FrameAnalysisInfo := []
  video_stats : Option VideoStats := none
  duration : Int := 0
  error : Option String := none
deriving DecidableEq

/-- Oracles for the external media services used by the preprocessor:
Groq speech-to-text, OpenAI Whisper, and the OpenCV frame extractor.
`Except.error` models the call raising an exception. -/
structure MediaOracles where
  transcribeGroq : String → Except String TranscriptionOutcome
  transcribeOpenai : String → Except String TranscriptionOutcome
  extractFrames : String → Nat → Except String FrameOutcome

/-- The audio branch of `_preprocess_multimedia_messages` (`app.py` lines
1250-1275): the `additional_text` lines it appends.  Both transcription
calls sit inside one `try`, so an exception from either lands in the same
`except` arm. -/
def audio_additional_text (o : MediaOracles) (audio : String) : List String :=
  match o.transcribeGroq audio with
  | .error _e => ["用户提供了一个音频文件，请根据用户的描述来分析。"]
  | .ok tr =>
    if tr.success then
      if !(pyStrip tr.text).data.isEmpty then
        ["用户语音内容：\"" ++ tr.text ++ "\"",
         "请分析用户的语音内容，并根据语音的语调和情感提供适当的回应。"]
      else
        ["用户提供了一个音频文件，但未能识别到清晰的语音内容。"]
    else
      match o.transcribeOpenai audio with
      | .error _e => ["用户提供了一个音频文件，请根据用户的描述来分析。"]
      | .ok fb =>
        if fb.success then
          ["用户语音内容：\"" ++ fb.text ++ "\""]
        else
          ["用户提供了一个音频文件，请根据用户的文字描述来分析音频内容。"]

/-- One line of the per-frame report (`app.py` lines 1301-1310). -/
def frame_line (fi : FrameAnalysisInfo) : String :=
  let motion_desc := if fi.motion_score < 20 then "静态"
    else if fi.motion_score < 50 then "中等运动" else "高运动"
  let light_desc := if fi.brightness < 80 then "较暗"
    else if fi.brightness < 180 then "适中" else "较亮"
  "  • " ++ fi.time_formatted ++ "（" ++ fi.position ++ "）- " ++ motion_desc ++ "，光线"
    ++ light_desc

/-- The video branch of `_preprocess_multimedia_messages` (`app.py` lines
1281-1333): the `additional_text` lines plus the extracted first frame
(the new `image` of the message), if any. -/
def video_process (o : MediaOracles) (video : String) : List String × Option String :=
  match o.extractFrames video 8 with
  | .error _e => (["用户提供了一个视频文件，请根据用户的文字描述来分析视频内容。"], none)
  | .ok fr =>
    if fr.success && !fr.frames.isEmpty then
      let headLines := ["用户提供了一个视频文件，我已经进行了完整的视频分析：",
        "📊 视频信息：" ++ fr.analysis_summary.getD "无法生成摘要"]
      let frameLines :=
        if fr.frame_analysis ≠ [] then
          ("🎬 关键帧分析（共" ++ toString fr.frame_analysis.length ++ "帧）：")
            :: (fr.frame_analysis.take 3).map frame_line
        else []
      let statsLines :=
        match fr.video_stats with
        | some vs => ["📈 运动统计：平均运动强度" ++ toString vs.avg_motion ++ "，场景变化"
            ++ toString vs.scene_changes ++ "次"]
        | none => []
      let tailLines := ["请基于以上视频分析信息和提供的关键帧图像，进行全面的视频内容分析。",
        "重点关注：1）视频的时序发展 2）场景变化 3）运动模式 4）整体故事情节。"]
      (headLines ++ frameLines ++ statsLines ++ tailLines, fr.frames.head?)
    else
      (["用户提供了一个视频文件，但无法进行完整的视频分析。",
        "请根据用户的文字描述来分析视频内容。",
        "建议用户详细描述视频中的：1）主要场景 2）人物动作 3）时间顺序 4）关键事件。"], none)

/-- The copy made at the top of the loop body (`processed_msg = dict(msg)`,
lines 1236-1243): a fresh dict with `role`/`text` defaulted when absent. -/
def processed_base (msg : ChatMessage) : ChatMessage :=
  { msg with role := some (msg.role.getD "user"), text := some (msg.text.getD "") }

/-- The loop body of `_preprocess_multimedia_messages` (`app.py` lines
1235-1356) for one message.  The first component is the message object of
the caller after the iteration, the second the dict appended to the output
list.  Every assignment in the source body targets the copy `processed_msg`
(field writes, `pop`, text concatenation); no statement writes to `msg`, so
the first component is `msg` itself. -/
def process_one (o : MediaOracles) (msg : ChatMessage) : ChatMessage × ChatMessage :=
  let base := processed_base msg
  if msg.role = some "user" then
    let audioTexts :=
      if pyTruthy msg.audio then audio_additional_text o (msg.audio.getD "") else []
    let videoResult :=
      if pyTruthy msg.video then video_process o (msg.video.getD "") else ([], none)
    let has_multimedia := pyTruthy msg.audio || pyTruthy msg.video
    let additional_text := audioTexts ++ videoResult.1
    let baseText := base.text.getD ""
    let mergedText :=
      if additional_text ≠ [] then
        if !baseText.data.isEmpty then baseText ++ "\n\n" ++ String.intercalate " " additional_text
        else String.intercalate " " additional_text
      else baseText
    let finalText :=
      if has_multimedia && (pyStrip (msg.text.getD "")).data.isEmpty then
        (mergedText ++ (if pyTruthy msg.audio then "\n\n请基于我的语音内容提供帮助和建议。" else ""))
          ++ (if pyTruthy msg.video then
                if pyTruthy msg.image then "\n\n请分析这个视频画面中的内容。"
                else "\n\n请告诉我您想了解这个视频的哪些方面？"
              else "")
      else mergedText
    (msg,
     { base with
       text := some finalText,
       image := match videoResult.2 with | some f => some f | none => base.image,
       audio := if pyTruthy msg.audio then none else base.audio,
       video := if pyTruthy msg.video then none else base.video })
  else
    (msg, base)

/-- Embedding of `_preprocess_multimedia_messages` (lines 1224-1358): empty (or
missing) input yields `[]`; otherwise each message is copied, processed and
appended to a fresh output list. -/
def preprocess_multimedia_messages (o : MediaOracles) (messages : List ChatMessage) :
    List ChatMessage :=
  if messages = [] then []
  else messages.map fun msg => (process_one o msg).2

/-- The observable effect of one call to `_preprocess_multimedia_messages`:
what the list of the caller holds afterwards, and the returned list.
Because the loop body writes only to the copy `dict(msg)`, the messages of
the caller are unchanged. -/
structure NormalizeObservation where
  callerMessagesAfter : List ChatMessage
  returned : List ChatMessage
deriving DecidableEq

/-- Embedding of `_preprocess_multimedia_messages` together with its
(absent) effect on the message objects of the caller. -/
def preprocess_observed (o : MediaOracles) (messages : List ChatMessage) :
    NormalizeObservation :=
  { callerMessagesAfter := (messages.map fun msg => (process_one o msg).1),
    returned := preprocess_multimedia_messages o messages }

/-- Substring test used to state "the text includes the block": the
character list of the pattern is an infix of that of the string. -/
def strIncludes (s pat : String) : Bool :=
  decide (pat.data <:+: s.data)

/-- The Bocha search response dict (`search` in `BochaSearchService`);
result items are abstracted as strings. -/
structure BochaResponse where
  success : Bool
  results : List String := []
  total_count : Nat := 0
  error : Option String := none

/-- Oracle for the external Bocha web-search client: the raw `search` call
(query, count, freshness) and `format_search_results_for_ai`
(response, max_results). -/
structure BochaOracle where
  search : String → Nat → String → BochaResponse
  format : BochaResponse → Nat → String

/-- The arguments dict passed to `execute_function` for `web_search`. -/
structure WebSearchArgs where
  query : Option String := none
  count : Option Nat := none
  freshness : Option String := none

/-- The result dict of `FunctionCallExecutor.execute_function`
(`result` holds the formatted text on success; `raw_results` is dropped,
nothing in the two-pass path reads it). -/
structure FunctionResult where
  success : Bool
  result : Option String := none
  error : Option String := none
  total_count : Nat := 0

/-- Embedding of `FunctionCallExecutor._execute_web_search` (`app.py` lines 1182-1219). -/
def execute_web_search (o : BochaOracle) (arguments : WebSearchArgs) : FunctionResult :=
  let query := arguments.query.getD ""
  let count := arguments.count.getD 6
  let freshness := arguments.freshness.getD "week"
  if query.data.isEmpty then
    { success := false, error := some "搜索查询不能为空" }
  else
    let search_result := o.search query (min count 10) freshness
    if search_result.success then
      { success := true, result := some (o.format search_result count),
        total_count := search_result.total_count }
    else
      { success := false, error := some (search_result.error.getD "搜索失败") }

/-- Embedding of `FunctionCallExecutor.execute_function` (`app.py` lines 1165-1180); the
only registered function is `web_search`, and in this model nothing inside
the `try` raises. -/
def execute_function (o : BochaOracle) (function_name : String) (arguments : WebSearchArgs) :
    FunctionResult :=
  if function_name = "web_search" then execute_web_search o arguments
  else { success := false, error := some ("未知的函数: " ++ function_name) }

/-- What the two-pass branch of `chat` does after the first-pass judgement
response arrives: run a second pass on an augmented message list, fall back
to a static apology, or return the judgement text as the direct answer. -/
inductive SearchPhaseOutcome where
  | searched (query : String) (secondPassMessages : List ChatMessage)
  | searchFailed (query : String) (fallbackResponse : String)
  | direct (response : String)
deriving DecidableEq

/-- The sentinel-handling slice of the `/api/chat` handler (`app.py` lines
1610-1670): detect `SEARCH_REQUIRED:`, extract the query, run
`execute_function("web_search", ...)`, and build the message list for the
second model call (the original processed list plus a synthetic assistant
message and a synthetic system message carrying the formatted block). -/
def two_pass_search_phase (o : BochaOracle) (processed_messages : List ChatMessage)
    (response_text : String) : SearchPhaseOutcome :=
  if pyStartsWith response_text "SEARCH_REQUIRED:" then
    let search_query := pyStrip (pyReplace response_text "SEARCH_REQUIRED:" "")
    let search_result := execute_function o "web_search" { query := some search_query }
    if search_result.success then
      let search_enhanced_messages := processed_messages ++
        [{ role := some "assistant",
           text := some ("我需要搜索 \x27" ++ search_query ++ "\x27 来回答您的问题。") },
         { role := some "system",
           text := some ("搜索结果：\n" ++ search_result.result.getD "" ++
             "\n\n请基于以上搜索结果回答用户的问题，提供准确、详细的信息。如果涉及价格数据，请整理成表格格式。") }]
      .searched search_query search_enhanced_messages
    else
      .searchFailed search_query ("我认为需要搜索 \x27" ++ search_query ++
        "\x27 来回答您的问题，但搜索功能暂时不可用。请稍后再试，或者您可以提供更多具体信息。")
  else
    .direct response_text

/-- A row passed to `ChatDatabase.add_message` (`database.py` lines
209-212); `image_data` stores any media payload. -/
structure MessageRow where
  session_id : String
  role : String
  content : String
  content_type : String := "text"
  image_data : Option String := none
  model : Option String := none
  provider : Option String := none
  file_name : Option String := none
  file_size : Option Nat := none
deriving DecidableEq

/-- Python `len(base64_data) * 3 // 4` over
the comma-split second segment of the media data (lines 1810-1813): the
code splits on commas and takes index 1, the segment between the first
comma and the next comma or the end. -/
def estimate_file_size (media_data : String) : Nat :=
  let base64_data : List Char :=
    if media_data.data.contains ',' then
      (((media_data.data.dropWhile (· ≠ ',')).drop 1).takeWhile (· ≠ ','))
    else media_data.data
  base64_data.length * 3 / 4

/-- The body of `_save_chat_messages` (`app.py` lines 1783-1836) before its
`except` handler: build and store the user row, then the assistant row.
`addMessage` is the `chat_db.add_message` oracle; `Except.error` models an
exception escaping it.  Reading the `response` key of the result dict
raises `KeyError` when the key is absent. -/
def save_chat_messages_body (addMessage : MessageRow → Except String Bool)
    (session_id : String) (last_user_message : ChatMessage) (result : ProviderResult)
    (model : String) : Except String Unit := do
  let user_content := last_user_message.text.getD ""
  let user_image := last_user_message.image
  let user_audio := last_user_message.audio
  let user_video := last_user_message.video
  let ctMedia : String × Option String :=
    if pyTruthy user_image then ("image", user_image)
    else if pyTruthy user_audio then ("audio", user_audio)
    else if pyTruthy user_video then ("video", user_video)
    else ("text", none)
  let file_size : Option Nat :=
    if pyTruthy user_audio || pyTruthy user_video then
      match ctMedia.2 with
      | some media_data => if !media_data.isEmpty then some (estimate_file_size media_data)
          else none
      | none => none
    else none
  let _ ← addMessage
    { session_id := session_id, role := "user", content := user_content,
      content_type := ctMedia.1, image_data := ctMedia.2, model := some model,
      file_name := none, file_size := file_size }
  let resp ← match result.response with
    | some r => Except.ok r
    | none => Except.error "KeyError: \x27response\x27"
  let _ ← addMessage
    { session_id := session_id, role := "assistant", content := resp,
      content_type := "text", model := result.model, provider := result.provider }
  Except.ok ()

/-- Embedding of `_save_chat_messages` (lines 1781-1838): the whole body is
wrapped in `try/except`, so the function never propagates an exception; the
return value is the log line emitted on failure (`none` when it succeeds). -/
def save_chat_messages (addMessage : MessageRow → Except String Bool) (session_id : String)
    (last_user_message : ChatMessage) (result : ProviderResult) (model : String) :
    Option String :=
  match save_chat_messages_body addMessage session_id last_user_message result model with
  | .ok _ => none
  | .error e => some ("保存聊天消息失败: " ++ e)

/-- The JSON body and status the `/api/chat` route replies with. -/
structure ChatHttpResponse where
  status : Nat
  success : Bool
  response : Option String := none
  provider : Option String := none
  model : Option String := none
  session_id : Option String := none
  error : Option String := none
deriving DecidableEq

/-- The tail of the `/api/chat` handler once a successful provider result is
in hand (`app.py` lines 1688-1699): best-effort persistence, then the
success JSON.  An `Except.error` value would mean an exception reached the
outer `try` of the route (which would answer 500); the second component is the
persistence log line. -/
def chat_success_tail (addMessage : MessageRow → Except String Bool)
    (session_id : Option String) (last_user_message : Option ChatMessage)
    (result : ProviderResult) (model : String) :
    Except String (ChatHttpResponse × Option String) := do
  let savedLog : Option String :=
    match session_id, last_user_message with
    | some sid, some lum =>
        if pyTruthy (some sid) then save_chat_messages addMessage sid lum result model
        else none
    | _, _ => none
  let resp ← match result.response with
    | some r => Except.ok r
    | none => Except.error "KeyError: \x27response\x27"
  Except.ok
    ({ status := 200, success := true, response := some resp,
       provider := result.provider, model := result.model, session_id := session_id },
     savedLog)

/-- An uploaded multipart file: `filename`, the size reported by
`seek(0,2); tell()`, and the base64 rendering of its bytes (the stdlib
`base64.b64encode` of `file.read()` is treated as a black box and carried
as a field). -/
structure UploadFile where
  filename : String
  size : Nat
  b64content : String
deriving DecidableEq

/-- The JSON body and status of the `/api/upload/audio` route. -/
structure UploadResponse where
  status : Nat
  success : Bool
  audio_data : Option String := none
  file_size : Option Nat := none
  file_name : Option String := none
  error : Option String := none
deriving DecidableEq

/-- The audio extension allow-list (`app.py` line 1919). -/
def ALLOWED_AUDIO_EXTENSIONS : List String :=
  ["mp3", "wav", "ogg", "m4a", "aac", "flac", "webm"]

/-- Python `filename.rsplit('.', 1)[1]`: the part after the last dot. -/
def extension_after_dot (filename : String) : String :=
  ⟨(filename.data.reverse.takeWhile (· ≠ '.')).reverse⟩

/-- Python `f"\x7bsize / 1024 / 1024:.1f\x7d"`: the size in MB with one
decimal digit.  The binary float formatting is modelled by decimal
rounding; no theorem depends on these digits. -/
def format_mb_1f (size : Nat) : String :=
  let tenths := (size * 10 + 524288) / 1048576
  toString (tenths / 10) ++ "." ++ toString (tenths % 10)

/-- The `/api/upload/audio` route `upload_audio` (`app.py` lines
1901-1961); `none` stands for a request without an `audio` file part. -/
def upload_audio (file? : Option UploadFile) : UploadResponse :=
  match file? with
  | none => { status := 400, success := false, error := some "没有找到音频文件" }
  | some file =>
    if file.filename.data.isEmpty then
      { status := 400, success := false, error := some "没有选择文件" }
    else if !(file.filename.data.contains '.')
        || !(ALLOWED_AUDIO_EXTENSIONS.contains (pyLower (extension_after_dot file.filename))) then
      { status := 400, success := false,
        error := some "不支持的音频格式，请上传 MP3、WAV、OGG、M4A、AAC、FLAC 或 WebM 格式的音频" }
    else if file.size > 10 * 1024 * 1024 then
      { status := 400, success := false,
        error := some ("音频文件过大 (" ++ format_mb_1f file.size ++ "MB)，最大支持10MB") }
    else
      let file_extension := pyLower (extension_after_dot file.filename)
      let mime_type := "audio/" ++ (if file_extension = "m4a" then "mp4" else file_extension)
      { status := 200, success := true,
        audio_data := some ("data:" ++ mime_type ++ ";base64," ++ file.b64content),
        file_size := some file.size, file_name := some file.filename }

/-- Python `isinstance(temperature, (int, float))`; `bool` is a subtype of
`int`, so booleans pass the check. -/
def isNumberInstance : PyVal → Bool
  | .pybool _ => true
  | .pyint _ => true
  | .pyfloat _ => true
  | _ => false

/-- The numeric value that the Python comparison operators use for a value that
passed the `isinstance` check (`True == 1`, `False == 0`). -/
def pyNumVal : PyVal → ℚ
  | .pybool b => if b then 1 else 0
  | .pyint n => (n : ℚ)
  | .pyfloat q => q
  | _ => 0

/-- The temperature validation of the `/api/chat` handler (`app.py` lines
1513-1515): `if not isinstance(temperature, (int, float)) or not
(0 <= temperature <= 2): temperature = 0.7`.  The short-circuiting `or`
guards the comparison, which in Python would raise on a non-number. -/
def validate_temperature (temperature : PyVal) : PyVal :=
  if !isNumberInstance temperature
      || !(decide (0 ≤ pyNumVal temperature ∧ pyNumVal temperature ≤ 2)) then
    .pyfloat (7 / 10)
  else
    temperature

/-- A media oracle whose services all answer "failure" without raising,
used to evaluate the preprocessor on concrete inputs. -/
def oracleStub : MediaOracles :=
  { transcribeGroq := fun _ => .ok { success := false },
    transcribeOpenai := fun _ => .ok { success := false },
    extractFrames := fun _ _ => .ok { success := false } }

/-! ### Theorems -/

theorem has_image_imp_multimedia (messages : List ChatMessage)
    (h : has_image_content messages = true) : has_multimedia_content messages = true := by
  simp only [has_image_content, List.any_eq_true] at h
  obtain ⟨m, hm, hi⟩ := h
  simp only [has_multimedia_content, List.any_eq_true]
  exact ⟨m, hm, by simp [hi]⟩

theorem groq_log_single (cfg : Config) (outcome : HttpOutcome) (messages : List ChatMessage)
    (model : String) (system_prompt : Option String) (temperature : PyVal)
    (tools : Option (List String)) (hgq : pyTruthy cfg.groq_api_key = true) :
    (get_groq_response cfg outcome messages model system_prompt temperature tools).2 =
      [.groq model] := by
  cases outcome <;> simp [get_groq_response, hgq]
  split <;> rfl

theorem groq_provider_cases (cfg : Config) (outcome : HttpOutcome) (messages : List ChatMessage)
    (model : String) (system_prompt : Option String) (temperature : PyVal)
    (tools : Option (List String)) :
    (get_groq_response cfg outcome messages model system_prompt temperature tools).1.provider
        = none ∨
      (get_groq_response cfg outcome messages model system_prompt temperature
        tools).1.provider = some "groq" := by
  by_cases hgq : pyTruthy cfg.groq_api_key = true
  · cases outcome <;> simp [get_groq_response, hgq]
    split <;> simp
  · simp only [Bool.not_eq_true] at hgq
    cases outcome <;> simp [get_groq_response, hgq]

theorem groq_provider_of_ok (cfg : Config) (outcome : HttpOutcome) (messages : List ChatMessage)
    (model : String) (system_prompt : Option String) (temperature : PyVal)
    (tools : Option (List String)) (hgq : pyTruthy cfg.groq_api_key = true)
    (am : ApiChatMessage) (hok : outcome = .ok am) :
    (get_groq_response cfg outcome messages model system_prompt temperature tools).1.provider =
      some "groq" := by
  subst hok
  simp [get_groq_response, hgq]
  split <;> rfl

theorem sf_all_failures_gives_fallback (cfg : Config) (net : Network)
    (messages : List ChatMessage) (model : String) (system_prompt : Option String)
    (temperature : PyVal) (tools : Option (List String))
    (hsf : pyTruthy cfg.siliconflow_api_key = true)
    (h0 : isNetworkFailure (net.sfOutcomes 0) = true)
    (h1 : isNetworkFailure (net.sfOutcomes 1) = true) :
    get_siliconflow_response cfg net messages model system_prompt temperature tools =
      ((get_groq_fallback_response cfg (net.groqOutcomes 0) messages system_prompt
          temperature).1,
       .siliconflow model :: .siliconflow model ::
         (get_groq_fallback_response cfg (net.groqOutcomes 0) messages system_prompt
           temperature).2) := by
  cases h0' : net.sfOutcomes 0 <;> rw [h0'] at h0 <;> simp [isNetworkFailure] at h0 <;>
    cases h1' : net.sfOutcomes 1 <;> rw [h1'] at h1 <;> simp [isNetworkFailure] at h1 <;>
    simp [get_siliconflow_response, hsf, MAX_RETRIES, sf_attempt_loop, h0', h1']

/-- Claim C1: if the SiliconFlow key is configured and both retry attempts
against SiliconFlow fail with a timeout or connection error, and Groq is
configured, then the orchestrator answers with the result of a single Groq
call on the fixed fallback model: the call log shows exactly the two
SiliconFlow attempts followed by one Groq attempt (no further retry), the
`provider` field of the result is never `siliconflow`, and whenever the Groq
attempt returns a response the `provider` field is `groq`. -/
theorem c1_timeout_fallover_to_groq (cfg : Config) (net : Network)
    (messages : List ChatMessage) (model : String) (system_prompt : Option String)
    (temperature : PyVal) (tools : Option (List String))
    (hsf : pyTruthy cfg.siliconflow_api_key = true)
    (hgq : pyTruthy cfg.groq_api_key = true)
    (h0 : isNetworkFailure (net.sfOutcomes 0) = true)
    (h1 : isNetworkFailure (net.sfOutcomes 1) = true) :
    get_siliconflow_response cfg net messages model system_prompt temperature tools =
      ((get_groq_fallback_response cfg (net.groqOutcomes 0) messages system_prompt
          temperature).1,
       [.siliconflow model, .siliconflow model, .groq DEFAULT_MULTIMODAL_MODEL]) ∧
    (get_siliconflow_response cfg net messages model system_prompt temperature
      tools).1.provider ≠ some "siliconflow" ∧
    (∀ am : ApiChatMessage, net.groqOutcomes 0 = .ok am →
      (get_siliconflow_response cfg net messages model system_prompt temperature
        tools).1.provider = some "groq") := by
  have hmain := sf_all_failures_gives_fallback cfg net messages model system_prompt temperature
    tools hsf h0 h1
  have hlog := groq_log_single cfg (net.groqOutcomes 0) messages DEFAULT_MULTIMODAL_MODEL
    system_prompt temperature none hgq
  refine ⟨?_, ?_, ?_⟩
  · rw [hmain]
    simp only [get_groq_fallback_response] at hlog ⊢
    rw [hlog]
  · rw [hmain]
    rcases groq_provider_cases cfg (net.groqOutcomes 0) messages DEFAULT_MULTIMODAL_MODEL
        system_prompt temperature none with hc | hc <;>
      simp only [get_groq_fallback_response] at * <;> simp [hc]
  · intro am hok
    rw [hmain]
    simp only [get_groq_fallback_response]
    exact groq_provider_of_ok cfg (net.groqOutcomes 0) messages DEFAULT_MULTIMODAL_MODEL
      system_prompt temperature none hgq am hok

theorem c1_timeout_fallover_to_groq_witness :
    pyTruthy (Config.mk (some "sk") (some "gk") none).siliconflow_api_key = true ∧
    (get_siliconflow_response (Config.mk (some "sk") (some "gk") none)
        { sfOutcomes := fun _ => .timeout "ReadTimeout",
          groqOutcomes := fun _ => .ok { content := some "来自Groq的回答" } }
        [{ role := some "user", text := some "你好" }] "deepseek-ai/DeepSeek-V2.5" none
        (.pyfloat (7 / 10)) none).1.provider = some "groq" :=
  ⟨by decide,
   (c1_timeout_fallover_to_groq (Config.mk (some "sk") (some "gk") none)
      { sfOutcomes := fun _ => .timeout "ReadTimeout",
        groqOutcomes := fun _ => .ok { content := some "来自Groq的回答" } }
      [{ role := some "user", text := some "你好" }] "deepseek-ai/DeepSeek-V2.5" none
      (.pyfloat (7 / 10)) none (by decide) (by decide) (by decide) (by decide)).2.2
     { content := some "来自Groq的回答" } rfl⟩

/-- Claim C2 counterexample: with the primary key configured, a first
attempt that fails with a non-timeout, non-connection exception
(`otherError`) is NOT surfaced immediately — the orchestrator performs a
second attempt (two SiliconFlow calls in the log) and returns that second
successful response of that second attempt, contradicting "surfaced immediately on the
first attempt ... with no second attempt". -/
theorem c2_other_error_counterexample :
    get_siliconflow_response { siliconflow_api_key := some "sk", groq_api_key := some "gk" }
      { sfOutcomes := fun n =>
          if n = 0 then .otherError "JSONDecodeError" else .ok { content := some "第二次成功" },
        groqOutcomes := fun _ => .ok { content := some "g" } }
      [{ role := some "user", text := some "你好" }] "deepseek-ai/DeepSeek-V2.5" none
      (.pyfloat (7 / 10)) none =
      ({ success := true, response := some "第二次成功", provider := some "siliconflow",
         model := some "deepseek-ai/DeepSeek-V2.5" },
       [.siliconflow "deepseek-ai/DeepSeek-V2.5", .siliconflow "deepseek-ai/DeepSeek-V2.5"]) := by
  decide

/-- Claim C2 (amended): non-timeout, non-connection exceptions go through
the same bounded retry loop as network failures; when every attempt raises
such an exception, the error of the final attempt is surfaced as a failure
`ProviderResult` (success = false with an error string naming it) after
exactly `MAX_RETRIES` SiliconFlow attempts, and the Groq fallback is never
invoked (no Groq call in the log). -/
theorem c2_other_error_retried_then_failed (cfg : Config) (net : Network)
    (messages : List ChatMessage) (model : String) (system_prompt : Option String)
    (temperature : PyVal) (tools : Option (List String)) (e0 e1 : String)
    (hsf : pyTruthy cfg.siliconflow_api_key = true)
    (h0 : net.sfOutcomes 0 = .otherError e0)
    (h1 : net.sfOutcomes 1 = .otherError e1) :
    get_siliconflow_response cfg net messages model system_prompt temperature tools =
      ({ success := false, error := some ("SiliconFlow API错误: " ++ e1) },
       [.siliconflow model, .siliconflow model]) := by
  simp [get_siliconflow_response, hsf, MAX_RETRIES, sf_attempt_loop, h0, h1]

theorem c2_other_error_retried_then_failed_witness :
    get_siliconflow_response { siliconflow_api_key := some "sk", groq_api_key := some "gk" }
      { sfOutcomes := fun _ => .otherError "HTTPError 500",
        groqOutcomes := fun _ => .ok { content := some "g" } }
      [{ role := some "user", text := some "你好" }] "deepseek-ai/DeepSeek-V2.5" none
      (.pyfloat (7 / 10)) none =
      ({ success := false, error := some ("SiliconFlow API错误: " ++ "HTTPError 500") },
       [.siliconflow "deepseek-ai/DeepSeek-V2.5", .siliconflow "deepseek-ai/DeepSeek-V2.5"]) :=
  c2_other_error_retried_then_failed
    { siliconflow_api_key := some "sk", groq_api_key := some "gk" }
    { sfOutcomes := fun _ => .otherError "HTTPError 500",
      groqOutcomes := fun _ => .ok { content := some "g" } }
    [{ role := some "user", text := some "你好" }] "deepseek-ai/DeepSeek-V2.5" none
    (.pyfloat (7 / 10)) none "HTTPError 500" "HTTPError 500" (by decide) rfl rfl

/-- Claim C6: for every requested model id not present in the static model
registry, `get_response` returns a failure `ProviderResult` whose error
names the unknown model, and performs no provider call (empty call log). -/
theorem c6_unknown_model (cfg : Config) (net : Network) (messages : List ChatMessage)
    (model : String) (system_prompt : Option String) (temperature : PyVal)
    (tools : Option (List String)) (h : get_model_info model = none) :
    get_response cfg net messages model system_prompt temperature tools =
      ({ success := false, error := some ("未知模型: " ++ model) }, []) := by
  simp [get_response, h]

theorem c6_unknown_model_witness :
    get_model_info "gpt-4" = none ∧
    get_response { siliconflow_api_key := some "sk", groq_api_key := some "gk" }
        { sfOutcomes := fun _ => .ok { content := some "r" },
          groqOutcomes := fun _ => .ok { content := some "r" } }
        [{ role := some "user", text := some "你好" }] "gpt-4" none (.pyfloat (7 / 10)) none =
      ({ success := false, error := some ("未知模型: " ++ "gpt-4") }, []) :=
  ⟨by decide,
   c6_unknown_model { siliconflow_api_key := some "sk", groq_api_key := some "gk" }
     { sfOutcomes := fun _ => .ok { content := some "r" },
       groqOutcomes := fun _ => .ok { content := some "r" } }
     [{ role := some "user", text := some "你好" }] "gpt-4" none (.pyfloat (7 / 10)) none
     (by decide)⟩

/-- Claim C3 counterexample: a message list with an audio attachment and no
image content, requested on the image-incapable model
`deepseek-ai/DeepSeek-V2.5`, is NOT served by the requested model as the
clause "otherwise ... used as-is" of the claim asserts — the selector still overrides
to the multimodal default. -/
theorem c3_selector_counterexample :
    has_image_content [{ role := some "user", text := some "听这段录音", audio := some "data:audio/wav;base64,AA" }] = false ∧
    select_model_id [{ role := some "user", text := some "听这段录音", audio := some "data:audio/wav;base64,AA" }] "deepseek-ai/DeepSeek-V2.5" =
      some "meta-llama/llama-4-scout-17b-16e-instruct" ∧
    select_model_id [{ role := some "user", text := some "听这段录音", audio := some "data:audio/wav;base64,AA" }] "deepseek-ai/DeepSeek-V2.5" ≠
      some "deepseek-ai/DeepSeek-V2.5" := by
  refine ⟨by decide, by decide, by decide⟩

/-- Claim C3 (amended): for a registered requested model, (1) image content
with an image-incapable model overrides the selection to the fixed
multimodal default; (2) audio/video content without image content on an
image-incapable model ALSO overrides to the multimodal default; (3) only
when the model supports images, or the conversation has no multimedia
content at all, is the requested model kept as-is; and the override target
is a registered model with `supports_image = true` on provider `groq`. -/
theorem c3_selector_override (messages : List ChatMessage) (model : String) (mi : ModelInfo)
    (h : get_model_info model = some mi) :
    (has_image_content messages = true → mi.supports_image = false →
      select_model_id messages model = some DEFAULT_MULTIMODAL_MODEL) ∧
    (has_multimedia_content messages = true → has_image_content messages = false →
      mi.supports_image = false →
      select_model_id messages model = some DEFAULT_MULTIMODAL_MODEL) ∧
    ((mi.supports_image = true ∨ has_multimedia_content messages = false) →
      select_model_id messages model = some model) ∧
    (get_model_info DEFAULT_MULTIMODAL_MODEL).map (fun m => (m.supports_image, m.provider)) =
      some (true, "groq") := by
  refine ⟨?_, ?_, ?_, by decide⟩
  · intro hi hs
    simp [select_model_id, h, select_model, hi, hs]
  · intro hm hi hs
    simp [select_model_id, h, select_model, hm, hi, hs]
  · rintro (hs | hm)
    · simp [select_model_id, h, select_model, hs]
    · have hi : has_image_content messages = false := by
        cases hh : has_image_content messages
        · rfl
        · exact absurd (has_image_imp_multimedia messages hh) (by simp [hm])
      simp [select_model_id, h, select_model, hi, hm]

theorem c3_selector_override_witness :
    get_model_info "deepseek-ai/DeepSeek-V2.5" =
      some ⟨"deepseek-ai/DeepSeek-V2.5", "DeepSeek-V2.5 (文本)", "siliconflow", true, false,
        "text"⟩ ∧
    select_model_id [{ role := some "user", image := some "data:image/png;base64,AA" }]
      "deepseek-ai/DeepSeek-V2.5" = some DEFAULT_MULTIMODAL_MODEL :=
  ⟨by decide,
   (c3_selector_override [{ role := some "user", image := some "data:image/png;base64,AA" }]
      "deepseek-ai/DeepSeek-V2.5"
      ⟨"deepseek-ai/DeepSeek-V2.5", "DeepSeek-V2.5 (文本)", "siliconflow", true, false, "text"⟩
      (by decide)).1 (by decide) rfl⟩

/-- Claim C10: the temperature taken from the request body is never a cause
for rejection: after the validation step the value passed on to the
provider is always a number (in the Python `isinstance` sense, which
counts booleans as numbers) in the closed interval [0, 2], and whenever the supplied value is
not a number or lies outside [0, 2] it has been silently replaced by the
default 0.7. -/
theorem c10_temperature_validation (temperature : PyVal) :
    isNumberInstance (validate_temperature temperature) = true ∧
    0 ≤ pyNumVal (validate_temperature temperature) ∧
    pyNumVal (validate_temperature temperature) ≤ 2 ∧
    ((isNumberInstance temperature = false ∨
        ¬(0 ≤ pyNumVal temperature ∧ pyNumVal temperature ≤ 2)) →
      validate_temperature temperature = .pyfloat (7 / 10)) := by
  cases h1 : isNumberInstance temperature with
  | false =>
      have hv : validate_temperature temperature = .pyfloat (7 / 10) := by
        simp [validate_temperature, h1]
      rw [hv]
      exact ⟨rfl, by norm_num [pyNumVal], by norm_num [pyNumVal], fun _ => rfl⟩
  | true =>
      by_cases h2 : 0 ≤ pyNumVal temperature ∧ pyNumVal temperature ≤ 2
      · have hv : validate_temperature temperature = temperature := by
          simp [validate_temperature, h1, h2]
        rw [hv]
        refine ⟨h1, h2.1, h2.2, ?_⟩
        rintro (hf | hr)
        · simp [h1] at hf
        · exact absurd h2 hr
      · have hv : validate_temperature temperature = .pyfloat (7 / 10) := by
          simp [validate_temperature, h1, h2]
        rw [hv]
        exact ⟨rfl, by norm_num [pyNumVal], by norm_num [pyNumVal], fun _ => rfl⟩

theorem c10_temperature_validation_witness :
    validate_temperature (.pystr "hot") = .pyfloat (7 / 10) :=
  (c10_temperature_validation (.pystr "hot")).2.2.2 (Or.inl rfl)

/-- Claim C8: an audio upload of exactly 10485760 bytes (10MB) succeeds and
answers with a `data:` URI, while one of 10485761 bytes is rejected with
status 400 and an error message stating the file is too large (and naming
the 10MB limit). -/
theorem c8_audio_upload_boundary :
    upload_audio (some ⟨"voice.mp3", 10485760, "QUJD"⟩) =
      { status := 200, success := true, audio_data := some "data:audio/mp3;base64,QUJD",
        file_size := some 10485760, file_name := some "voice.mp3" } ∧
    (upload_audio (some ⟨"voice.mp3", 10485761, "QUJD"⟩)).status = 400 ∧
    (upload_audio (some ⟨"voice.mp3", 10485761, "QUJD"⟩)).success = false ∧
    strIncludes ((upload_audio (some ⟨"voice.mp3", 10485761, "QUJD"⟩)).error.getD "") "过大"
      = true ∧
    strIncludes ((upload_audio (some ⟨"voice.mp3", 10485761, "QUJD"⟩)).error.getD "")
      "最大支持10MB" = true := by
  exact ⟨by decide, by decide, by decide, by decide, by decide⟩

theorem strIncludes_append (xpre block xsuf : String) :
    strIncludes (xpre ++ block ++ xsuf) block = true := by
  simp only [strIncludes, decide_eq_true_eq]
  exact ⟨xpre.data, xsuf.data, by simp [String.data_append]⟩

/-- Claim C5: when the first-pass judgement response is exactly
`SEARCH_REQUIRED:gold price` and the web search on "gold price" succeeds,
the controller issues the search with query "gold price" (count 6,
freshness "week") and hands the second model call a message list of the
processed messages plus two appended messages, one of which carries the
formatted search-results block in its text. -/
theorem c5_two_pass_search (o : BochaOracle) (processed_messages : List ChatMessage)
    (hs : (o.search "gold price" 6 "week").success = true) :
    ∃ msgs, two_pass_search_phase o processed_messages "SEARCH_REQUIRED:gold price" =
        .searched "gold price" msgs ∧
      msgs.length = processed_messages.length + 2 ∧
      (msgs.any fun m =>
        strIncludes (m.text.getD "") (o.format (o.search "gold price" 6 "week") 6)) = true := by
  have hstart : pyStartsWith "SEARCH_REQUIRED:gold price" "SEARCH_REQUIRED:" = true := by decide
  have hquery : pyStrip (pyReplace "SEARCH_REQUIRED:gold price" "SEARCH_REQUIRED:" "") =
      "gold price" := by decide
  have hmin : min 6 10 = 6 := by decide
  have hne : ("gold price".data.isEmpty) = false := by decide
  have hexec : execute_function o "web_search" { query := some "gold price" } =
      { success := true, result := some (o.format (o.search "gold price" 6 "week") 6),
        total_count := (o.search "gold price" 6 "week").total_count } := by
    simp [execute_function, execute_web_search, hmin, hne, hs]
  refine ⟨processed_messages ++
      [{ role := some "assistant",
         text := some ("我需要搜索 \x27" ++ "gold price" ++ "\x27 来回答您的问题。") },
       { role := some "system",
         text := some ("搜索结果：\n" ++ o.format (o.search "gold price" 6 "week") 6 ++
           "\n\n请基于以上搜索结果回答用户的问题，提供准确、详细的信息。如果涉及价格数据，请整理成表格格式。") }],
    ?_, by simp, ?_⟩
  · simp only [two_pass_search_phase, hstart, if_true, hquery, hexec, Option.getD_some]
  · rw [List.any_eq_true]
    refine ⟨⟨some "system", some ("搜索结果：\n" ++ o.format (o.search "gold price" 6 "week") 6 ++ "\n\n请基于以上搜索结果回答用户的问题，提供准确、详细的信息。如果涉及价格数据，请整理成表格格式。"), none, none, none⟩, List.mem_append_right _ (by simp), ?_⟩
    show strIncludes ("搜索结果：\n" ++ o.format (o.search "gold price" 6 "week") 6 ++
      "\n\n请基于以上搜索结果回答用户的问题，提供准确、详细的信息。如果涉及价格数据，请整理成表格格式。")
      (o.format (o.search "gold price" 6 "week") 6) = true
    exact strIncludes_append _ _ _

theorem c5_two_pass_search_witness :
    ∃ msgs, two_pass_search_phase
        { search := fun _ _ _ => { success := true, results := ["item"], total_count := 1 },
          format := fun _ _ => "金价搜索结果块" } [] "SEARCH_REQUIRED:gold price" =
        .searched "gold price" msgs ∧
      msgs.length = ([] : List ChatMessage).length + 2 ∧
      (msgs.any fun m => strIncludes (m.text.getD "") "金价搜索结果块") = true :=
  c5_two_pass_search
    { search := fun _ _ _ => { success := true, results := ["item"], total_count := 1 },
      format := fun _ _ => "金价搜索结果块" } [] rfl

/-- Claim C7: once a chat turn holds a successful provider result carrying
a response, the tail of the route returns the HTTP 200 success body with that
response for EVERY persistence oracle — including one whose every call
raises — because `_save_chat_messages` catches all exceptions; and when the
save body does raise, the exception is only logged (the returned log line
names the failure) while the response is unchanged. -/
theorem c7_persistence_best_effort (addMessage : MessageRow → Except String Bool)
    (session_id : Option String) (last_user_message : Option ChatMessage)
    (result : ProviderResult) (model : String) (r : String)
    (_hsucc : result.success = true) (hresp : result.response = some r) :
    (∃ savedLog, chat_success_tail addMessage session_id last_user_message result model =
      .ok ({ status := 200, success := true, response := some r, provider := result.provider,
             model := result.model, session_id := session_id }, savedLog)) ∧
    (∀ sid lum e, session_id = some sid → last_user_message = some lum →
      pyTruthy (some sid) = true →
      save_chat_messages_body addMessage sid lum result model = .error e →
      chat_success_tail addMessage session_id last_user_message result model =
        .ok ({ status := 200, success := true, response := some r, provider := result.provider,
               model := result.model, session_id := session_id },
             some ("保存聊天消息失败: " ++ e))) := by
  constructor
  · refine ⟨(match session_id, last_user_message with
      | some sid, some lum =>
          if pyTruthy (some sid) then save_chat_messages addMessage sid lum result model
          else none
      | _, _ => none), ?_⟩
    simp only [chat_success_tail, hresp]
    rfl
  · intro sid lum e hsid hlum hp hbody
    subst hsid
    subst hlum
    simp only [chat_success_tail, hresp, hp, if_true, save_chat_messages, hbody]
    rfl

theorem c7_persistence_best_effort_witness :
    ∃ savedLog, chat_success_tail (fun _ => .error "database is locked") (some "sess-1")
        (some { role := some "user", text := some "你好" })
        { success := true, response := some "答复", provider := some "siliconflow", model := some "deepseek-ai/DeepSeek-V2.5" }
        "deepseek-ai/DeepSeek-V2.5" =
      .ok ({ status := 200, success := true, response := some "答复", provider := some "siliconflow", model := some "deepseek-ai/DeepSeek-V2.5", session_id := some "sess-1" }, savedLog) :=
  (c7_persistence_best_effort (fun _ => .error "database is locked") (some "sess-1")
    (some { role := some "user", text := some "你好" })
    { success := true, response := some "答复", provider := some "siliconflow", model := some "deepseek-ai/DeepSeek-V2.5" }
    "deepseek-ai/DeepSeek-V2.5" "答复" rfl rfl).1

theorem process_one_fst (o : MediaOracles) (m : ChatMessage) : (process_one o m).1 = m := by
  by_cases h : m.role = some "user" <;> simp [process_one, h]

/-- Claim C4 counterexample: a message whose role is `assistant` (not
`user`) passes through the normalizer with its audio payload intact, so
the output does carry a raw audio field for every input list containing
such a message. -/
theorem c4_nonuser_audio_counterexample :
    (preprocess_multimedia_messages oracleStub
        [{ role := some "assistant", audio := some "data:audio/wav;base64,AA" }]).map
      (fun m => m.audio) = [some "data:audio/wav;base64,AA"] := by
  decide

/-- Claim C4 (amended): the normalizer maps each message to a processed
copy; every copy of a message whose role is `user` carries no audio and no
video payload (the fields are popped when present), while a message with
any other or missing role is returned as the defaulted copy, its media
fields retained. -/
theorem c4_user_media_stripped (o : MediaOracles) (messages : List ChatMessage)
    (hne : messages ≠ []) :
    preprocess_multimedia_messages o messages =
      (messages.map fun m => (process_one o m).2) ∧
    (∀ m ∈ messages, m.role = some "user" →
      pyTruthy (process_one o m).2.audio = false ∧
        pyTruthy (process_one o m).2.video = false) ∧
    (∀ m ∈ messages, m.role ≠ some "user" → (process_one o m).2 = processed_base m) := by
  refine ⟨by simp [preprocess_multimedia_messages, hne], ?_, ?_⟩
  · intro m hm hrole
    constructor
    · cases ha : pyTruthy m.audio with
      | false => simp [process_one, hrole, processed_base, ha]
      | true =>
          simp [process_one, hrole, processed_base, ha,
            show pyTruthy none = false from rfl]
    · cases hv : pyTruthy m.video with
      | false => simp [process_one, hrole, processed_base, hv]
      | true =>
          simp [process_one, hrole, processed_base, hv,
            show pyTruthy none = false from rfl]
  · intro m hm hrole
    simp [process_one, hrole]

theorem c4_user_media_stripped_witness :
    pyTruthy (process_one oracleStub
      { role := some "user", text := some "听", audio := some "data:audio/wav;base64,AA" }).2.audio
      = false :=
  ((c4_user_media_stripped oracleStub
      [{ role := some "user", text := some "听", audio := some "data:audio/wav;base64,AA" }]
      (by decide)).2.1
    { role := some "user", text := some "听", audio := some "data:audio/wav;base64,AA" }
    (List.mem_singleton.mpr rfl) rfl).1

/-- Claim C9 counterexample: after one call of the normalizer on a message
list with an audio attachment, the list of the caller is exactly what it
was, while the returned list differs — the media replacement happens on
copies, not in place. -/
theorem c9_in_place_counterexample :
    (preprocess_observed oracleStub
        [{ role := some "user", text := some "听", audio := some "data:audio/wav;base64,AA" }]).callerMessagesAfter =
      [{ role := some "user", text := some "听", audio := some "data:audio/wav;base64,AA" }] ∧
    (preprocess_observed oracleStub
        [{ role := some "user", text := some "听", audio := some "data:audio/wav;base64,AA" }]).returned ≠
      [{ role := some "user", text := some "听", audio := some "data:audio/wav;base64,AA" }] := by
  constructor
  · decide
  · decide

/-- Claim C9 (amended): the Multimedia Normalizer never modifies the
ChatMessage objects of the caller: every write in the loop body targets
the copy `dict(msg)`, so after the call the input list is unchanged and the
returned list is a fresh list of the processed copies. -/
theorem c9_normalizer_copies (o : MediaOracles) (messages : List ChatMessage) :
    (preprocess_observed o messages).callerMessagesAfter = messages ∧
    (preprocess_observed o messages).returned =
      (if messages = [] then [] else messages.map fun m => (process_one o m).2) := by
  constructor
  · simp [preprocess_observed, process_one_fst]
  · simp [preprocess_observed, preprocess_multimedia_messages]
